import Mathlib

/-!
Verification of the xcx-p2p signaling relay and negotiation engine.

The definitions below are a shallow embedding of the repository's code:
* the Google-Apps-Script relay (`doGet`, `doPost` in `src/gas/main.js`),
* the `SheetSignalingChannel` transport (`src/unnamed/part_000`),
* the `SharingPeer` negotiation engine (`src/unnamed/part_001`),
* the older `SharingPeer.connect` guard (`src/unnamed/part_002`).

JavaScript strings stay `String`; sheet timestamps become `Nat`; timer
handles become `Option Nat` (armed with an interval/duration, or off);
a promise becomes a pair of "callbacks installed" and an optional settled
outcome (`Except` error for a rejection).  Network sends are recorded in
`sent` lists so that theorems can speak about what reached the relay.
-/

set_option autoImplicit false

/-- A signaling message as stored in / parsed from the relay: the JS objects
always carry a `type` field (`"offer"`, `"answer"`, `"candidate"`); the rest
of the payload (sdp or candidate) is kept opaque in `body`. -/
structure Msg where
  type : String
  body : String
  deriving DecidableEq

/-- One data row of the `SignalingMessages` sheet (header row excluded):
`[SignalName, FromID, Message, Timestamp]`.  Rows are kept in append order,
oldest first, as `appendRow` produces them. -/
structure SignalRow where
  signalName : String
  fromId : String
  message : Msg
  timestamp : Nat
  deriving DecidableEq

/-- One element of the JSON array returned by `doGet`:
`{from: rowFromId, message: messageContent, timestamp: rowTimestamp}`.
The JS field `from` is a Lean keyword, so it is called `fromId` here. -/
structure Delivered where
  fromId : String
  message : Msg
  timestamp : Nat
  deriving DecidableEq

/-- The row scan of `doGet` (src/gas/main.js lines 28-45).  The input list is
the sheet reversed, so its head is the most recent row; `answerSent` is the
flag declared before the loop.  For a row of the requested session the flag
is updated first (`if (messageContent.type === 'answer') answerSent = true;`)
and the delivery check `rowFromId !== recipientId && !answerSent` runs on the
updated flag.  Returns (delivered messages in emission order, surviving rows
still newest-first). -/
def doGetPass (signalName recipientId : String) :
    List SignalRow → Bool → (List Delivered × List SignalRow)
  | [], _ => ([], [])
  | row :: rest, answerSent =>
    if row.signalName == signalName then
      let answerSent2 := answerSent || (row.message.type == "answer")
      if row.fromId != recipientId && !answerSent2 then
        let res := doGetPass signalName recipientId rest answerSent2
        (⟨row.fromId, row.message, row.timestamp⟩ :: res.1, res.2)
      else
        let res := doGetPass signalName recipientId rest answerSent2
        (res.1, row :: res.2)
    else
      let res := doGetPass signalName recipientId rest answerSent
      (res.1, row :: res.2)

/-- The `doGet` (src/gas/main.js lines 19-49): walks the sheet from the last row
up (most recent first), collects the delivered messages and deletes each
delivered row.  Returns (response array, sheet left behind in append order). -/
def doGet (sheet : List SignalRow) (signalName recipientId : String) :
    List Delivered × List SignalRow :=
  let res := doGetPass signalName recipientId sheet.reverse false
  (res.1, res.2.reverse)

/-- The `doPost` (src/gas/main.js lines 60-86): when the posted message is an
`answer`, every existing row of that `signalName` is deleted (the downward
delete loop removes exactly the rows whose first cell matches, preserving the
order of the others); then the new row is appended. -/
def doPost (sheet : List SignalRow) (signalName fromId : String)
    (message : Msg) (timestamp : Nat) : List SignalRow :=
  let base :=
    if message.type == "answer" then
      sheet.filter (fun r => r.signalName != signalName)
    else sheet
  base ++ [⟨signalName, fromId, message, timestamp⟩]

/-- The `SheetSignalingChannel` of src/unnamed/part_000.  `_pollInterval` is
modelled by `pollIntervalMs`: `none` when no interval timer is installed,
`some 1000` once `setInterval(..., 1000)` ran.  Outgoing relay writes are
recorded in `sent`. -/
structure SheetSignalingChannel where
  connected : Bool
  id : String
  pollIntervalMs : Option Nat
  signalingState : String
  signalName : String
  sent : List Msg
  deriving DecidableEq

/-- The constructor of `SheetSignalingChannel` (part_000 lines 7-28), with
the random `_id` as a parameter; `signalName` starts as the JS `null`,
rendered as the empty string. -/
def mkChannel (id : String) : SheetSignalingChannel :=
  { connected := false, id := id, pollIntervalMs := none
    signalingState := "disconnected", signalName := "", sent := [] }

/-- The `connect` (part_000 lines 34-40): early-returns when already connected;
otherwise records the signal name, sets the state to `connected` and marks
the channel connected.  It does not touch the poll timer. -/
def SheetSignalingChannel.connect (c : SheetSignalingChannel)
    (signalName : String) : SheetSignalingChannel :=
  if c.connected then c
  else { c with signalName := signalName, signalingState := "connected"
                connected := true }

/-- The `startPolling` (part_000 lines 54-58): no-op when an interval is already
installed, otherwise installs the 1000 ms interval timer. -/
def SheetSignalingChannel.startPolling (c : SheetSignalingChannel) :
    SheetSignalingChannel :=
  if c.pollIntervalMs.isSome then c else { c with pollIntervalMs := some 1000 }

/-- The `stopPolling` (part_000 lines 64-70): clears the interval timer. -/
def SheetSignalingChannel.stopPolling (c : SheetSignalingChannel) :
    SheetSignalingChannel :=
  { c with pollIntervalMs := none }

/-- The `disconnect` (part_000 lines 42-48). -/
def SheetSignalingChannel.disconnect (c : SheetSignalingChannel) :
    SheetSignalingChannel :=
  if !c.connected then c
  else ({ c with signalingState := "disconnected", connected := false
        } : SheetSignalingChannel).stopPolling

/-- The `send` (part_000 lines 72-91): throws when not connected (no claim
examines the thrown error, so that branch leaves the channel unchanged);
otherwise the write `{signalName, fromId: _id, message}` reaches the relay,
recorded on `sent`. -/
def SheetSignalingChannel.send (c : SheetSignalingChannel) (m : Msg) :
    SheetSignalingChannel :=
  if c.connected then { c with sent := c.sent ++ [m] } else c

/-- The `startOffering` (part_000 lines 123-128): guarded on the channel state,
then starts polling and sends the offer. -/
def SheetSignalingChannel.startOffering (c : SheetSignalingChannel)
    (offer : Msg) : SheetSignalingChannel :=
  if c.signalingState != "connected" then c
  else c.startPolling.send offer

/-- The `startAnswering` (part_000 lines 130-133). -/
def SheetSignalingChannel.startAnswering (c : SheetSignalingChannel) :
    SheetSignalingChannel :=
  if c.signalingState != "connected" then c else c.startPolling

/-- The `stopNegotiation` (part_000 lines 135-137): only stops polling. -/
def SheetSignalingChannel.stopNegotiation (c : SheetSignalingChannel) :
    SheetSignalingChannel :=
  c.stopPolling

/-- Modelled from the spec: the relay's `action=delete` handler is not under
src/ (src/gas/main.js has no `action` dispatch; src/unnamed/part_000
`deleteOwnMessages` is its caller).  Spec section 6: "Delete-own: GET with
action=delete, sessionName, fromId → removes all records matching both
fields". -/
def relayDeleteOwn (sheet : List SignalRow) (signalName fromId : String) :
    List SignalRow :=
  sheet.filter (fun r => !(r.signalName == signalName && r.fromId == fromId))

/-- The `deleteOwnMessages` (part_000 lines 139-153): no-op when the channel is
not connected, otherwise asks the relay to drop all of this sender's records
for the session. -/
def SheetSignalingChannel.deleteOwnMessages (c : SheetSignalingChannel)
    (sheet : List SignalRow) : List SignalRow :=
  if !c.connected then sheet else relayDeleteOwn sheet c.signalName c.id

/-- Modelled from the spec: the relay's `action=isOffering` handler is not
under src/ (src/gas/main.js has no `action` dispatch; src/unnamed/part_000
`isOffering` is its caller).  Spec section 6: "Query: GET with
action=isOffering, sessionName, recipientId → isOffering boolean; true iff
an undelivered offer-type record from a different sender exists".  The
handler only answers the query; it returns the stored records untouched. -/
def relayIsOffering (sheet : List SignalRow) (signalName recipientId : String) :
    Bool × List SignalRow :=
  (sheet.any (fun r =>
      r.signalName == signalName && r.fromId != recipientId &&
        r.message.type == "offer"),
   sheet)

/-- The `isOffering` (part_000 lines 155-178): returns false when the channel is
not connected, otherwise the relay's boolean answer for this session and
sender id. -/
def SheetSignalingChannel.isOffering (c : SheetSignalingChannel)
    (sheet : List SignalRow) : Bool :=
  if !c.connected then false
  else (relayIsOffering sheet c.signalName c.id).1

/-- The promise handed out by `startOffering`/`startAnswering`:
`resolved` for `negotiationResolve()`, `rejected msg` for
`negotiationReject(new Error(msg))`. -/
inductive NegotiationOutcome where
  | resolved
  | rejected (msg : String)
  deriving DecidableEq

/-- The opaque `RTCPeerConnection` capability, reduced to the fields the
engine reads: `connectionState`, `signalingState`, whether a remote/local
description is set, and the list of candidates passed to `addIceCandidate`
in call order. -/
structure PC where
  connState : String
  pcSignalingState : String
  remoteDescSet : Bool
  localDescSet : Bool
  applied : List String
  initiator : Bool
  deriving DecidableEq

/-- The `new RTCPeerConnection(...)`: fresh connection in state `new`/`stable`. -/
def mkPC (isInitiator : Bool) : PC :=
  { connState := "new", pcSignalingState := "stable", remoteDescSet := false
    localDescSet := false, applied := [], initiator := isInitiator }

/-- The `SharingPeer` negotiation engine of src/unnamed/part_001.  The
negotiation timeout handle becomes `negotiationTimeoutArmed` (the armed
duration, or `none`); `negotiationResolve`/`negotiationReject` being
non-null becomes `negotiationCallbacksSet`; the promise's settlement is
`negotiationOutcome` (`none` while pending).  `dcSent` records successful
data-channel sends. -/
structure SharingPeer where
  channel : SheetSignalingChannel
  signalingState : String
  signalName : String
  offeringTimeoutDuration : Nat
  answeringTimeoutDuration : Nat
  pc : Option PC
  dataChannel : Option String
  dataChannelValues : List (String × String)
  dcSent : List (String × String)
  remoteCandidatesQueue : List String
  negotiationTimeoutArmed : Option Nat
  negotiationCallbacksSet : Bool
  negotiationOutcome : Option NegotiationOutcome
  deriving DecidableEq

/-- The `SharingPeer` constructor (part_001 lines 11-46), with the channel's
random id as a parameter. -/
def mkSharingPeer (id : String) : SharingPeer :=
  { channel := mkChannel id, signalingState := "disconnected", signalName := ""
    offeringTimeoutDuration := 60000, answeringTimeoutDuration := 60000
    pc := none, dataChannel := none, dataChannelValues := [], dcSent := []
    remoteCandidatesQueue := [], negotiationTimeoutArmed := none
    negotiationCallbacksSet := false, negotiationOutcome := none }

/-- The `isConnected` (part_001 lines 272-274). -/
def SharingPeer.isConnected (p : SharingPeer) : Bool :=
  match p.pc with
  | some c => c.connState == "connected"
  | none => false

/-- The `disconnectPeer` (part_001 lines 276-287): closes and drops the data
channel and the peer connection. -/
def SharingPeer.disconnectPeer (p : SharingPeer) : SharingPeer :=
  { p with dataChannel := none, pc := none }

/-- The `initializePeerConnection` (part_001 lines 142-176): drops any previous
connection, creates a fresh one and, for the initiator, the data channel.
(The source name had to be shortened for this development.) -/
def SharingPeer.initPeerConnection (p : SharingPeer) (isInitiator : Bool) :
    SharingPeer :=
  let p := p.disconnectPeer
  { p with pc := some (mkPC isInitiator)
           dataChannel := if isInitiator then some "xcxP2P" else none }

/-- The `connectSignalingChannel` (part_001 lines 48-55): skips only when the
channel already has this signal name AND the peer connection is connected;
otherwise (re)connects the channel and resets the engine state to
`connected`. -/
def SharingPeer.connectSignalingChannel (p : SharingPeer)
    (signalName : String) : SharingPeer :=
  if p.channel.signalName == signalName && p.isConnected then p
  else
    { p with channel := p.channel.connect signalName
             signalName := signalName, signalingState := "connected" }

/-- The local description produced by `createOffer()`; its sdp is opaque. -/
def localOffer : Msg := ⟨"offer", "sdp"⟩

/-- The `startOffering` (part_001 lines 97-122): state to `offering`, fresh peer
connection as initiator, promise callbacks installed, offering timeout
armed, local offer created and set (`have-local-offer`), then sent through
the channel (which also starts polling). -/
def SharingPeer.startOffering (p : SharingPeer) : SharingPeer :=
  let p := { p with signalingState := "offering" }
  let p := p.initPeerConnection true
  let p := { p with negotiationCallbacksSet := true, negotiationOutcome := none
                    negotiationTimeoutArmed := some p.offeringTimeoutDuration }
  let p := { p with pc := p.pc.map (fun (c : PC) =>
                { c with localDescSet := true
                         pcSignalingState := "have-local-offer" }) }
  { p with channel := p.channel.startOffering localOffer }

/-- The `startAnswering` (part_001 lines 124-140): state to `answering`, fresh
peer connection as non-initiator, promise callbacks installed, answering
timeout armed, channel polling started. -/
def SharingPeer.startAnswering (p : SharingPeer) : SharingPeer :=
  let p := { p with signalingState := "answering" }
  let p := p.initPeerConnection false
  let p := { p with negotiationCallbacksSet := true, negotiationOutcome := none
                    negotiationTimeoutArmed := some p.answeringTimeoutDuration }
  { p with channel := p.channel.startAnswering }

/-- The `startSignaling` (part_001 lines 57-75): connect the channel, query the
relay's isOffering, then answer if someone is offering, else offer.  The
relay sheet is the queried state. -/
def SharingPeer.startSignaling (p : SharingPeer) (signalName : String)
    (sheet : List SignalRow) : SharingPeer :=
  if (p.connectSignalingChannel signalName).channel.isOffering sheet then
    (p.connectSignalingChannel signalName).startAnswering
  else (p.connectSignalingChannel signalName).startOffering

/-- The engine together with the relay's stored records: needed for the
operations that delete relay rows. -/
structure World where
  peer : SharingPeer
  relay : List SignalRow
  deriving DecidableEq

/-- The offering-timeout callback (part_001 lines 104-110).  `clearTimeout`
means the callback can only run while the timer is armed; it then disarms
itself, stops the channel's negotiation polling, deletes this peer's relay
records, reverts the state to `connected` and rejects the (still pending)
promise. -/
def fireOfferingTimeout (w : World) : World :=
  if w.peer.negotiationTimeoutArmed.isSome then
    let p := w.peer
    let p := { p with negotiationTimeoutArmed := none }
    let p := { p with channel := p.channel.stopNegotiation }
    let relay := p.channel.deleteOwnMessages w.relay
    let p := { p with signalingState := "connected"
                      negotiationOutcome :=
                        if p.negotiationOutcome.isNone then
                          some (.rejected "Offering timeout")
                        else p.negotiationOutcome }
    ⟨p, relay⟩
  else w

/-- The answering-timeout callback (part_001 lines 130-136), identical to
the offering one except for the error message. -/
def fireAnsweringTimeout (w : World) : World :=
  if w.peer.negotiationTimeoutArmed.isSome then
    let p := w.peer
    let p := { p with negotiationTimeoutArmed := none }
    let p := { p with channel := p.channel.stopNegotiation }
    let relay := p.channel.deleteOwnMessages w.relay
    let p := { p with signalingState := "connected"
                      negotiationOutcome :=
                        if p.negotiationOutcome.isNone then
                          some (.rejected "Answering timeout")
                        else p.negotiationOutcome }
    ⟨p, relay⟩
  else w

/-- The `stopNegotiation` (part_001 lines 77-95): clears the negotiation timer,
stops the channel's polling; on success resolves a pending promise, else
(when the callbacks are installed) deletes this peer's relay records and
rejects; then drops the callbacks and reverts the state to `connected`.
Settling an already-settled promise is a no-op. -/
def World.stopNegotiation (w : World) (success : Bool) : World :=
  let p := w.peer
  let p := { p with negotiationTimeoutArmed := none }
  let p := { p with channel := p.channel.stopNegotiation }
  if success then
    let p := { p with negotiationOutcome :=
                 (if p.negotiationCallbacksSet && p.negotiationOutcome.isNone
                  then some NegotiationOutcome.resolved
                  else p.negotiationOutcome) }
    ⟨{ p with negotiationCallbacksSet := false, signalingState := "connected" },
     w.relay⟩
  else if p.negotiationCallbacksSet then
    let relay := p.channel.deleteOwnMessages w.relay
    let p := { p with negotiationOutcome :=
                 (if p.negotiationOutcome.isNone
                  then some (.rejected "Negotiation rejected")
                  else p.negotiationOutcome) }
    ⟨{ p with negotiationCallbacksSet := false, signalingState := "connected" },
     relay⟩
  else
    ⟨{ p with negotiationCallbacksSet := false, signalingState := "connected" },
     w.relay⟩

/-- The `handleSignalingMessage` (part_001 lines 182-221).  An offer while
answering (peer connection `stable`): set the remote description, flush the
queued candidates, create/set the local answer and send it.  An answer while
offering (`have-local-offer`): set the remote description and flush the
queue.  A candidate: apply immediately when a remote description is set,
else append to the queue.  A missing peer connection throws in JS and the
catch leaves the state as it was. -/
def SharingPeer.handleSignalingMessage (p : SharingPeer) (m : Msg) :
    SharingPeer :=
  if m.type == "offer" && p.signalingState == "answering" then
    match p.pc with
    | none => p
    | some c =>
      if c.pcSignalingState != "stable" then p
      else
        let c := { c with remoteDescSet := true
                          pcSignalingState := "have-remote-offer" }
        let c := { c with applied := c.applied ++ p.remoteCandidatesQueue }
        let c := { c with localDescSet := true, pcSignalingState := "stable" }
        { p with pc := some c, remoteCandidatesQueue := []
                 channel := p.channel.send ⟨"answer", "sdp"⟩ }
  else if m.type == "answer" && p.signalingState == "offering" then
    match p.pc with
    | none => p
    | some c =>
      if c.pcSignalingState != "have-local-offer" then p
      else
        let c := { c with remoteDescSet := true, pcSignalingState := "stable" }
        let c := { c with applied := c.applied ++ p.remoteCandidatesQueue }
        { p with pc := some c, remoteCandidatesQueue := [] }
  else if m.type == "candidate" then
    match p.pc with
    | none => p
    | some c =>
      if c.remoteDescSet then
        { p with pc := some { c with applied := c.applied ++ [m.body] } }
      else
        { p with remoteCandidatesQueue := p.remoteCandidatesQueue ++ [m.body] }
  else p

/-- A sequence of received candidate messages, in arrival order. -/
def SharingPeer.handleCandidates (p : SharingPeer) (cs : List String) :
    SharingPeer :=
  cs.foldl (fun q c => q.handleSignalingMessage ⟨"candidate", c⟩) p

/-- JS object update `obj[key] = value` on a string-to-string map. -/
def assocSet : List (String × String) → String → String →
    List (String × String)
  | [], k, v => [(k, v)]
  | (k0, v0) :: rest, k, v =>
    if k0 == k then (k0, v) :: rest else (k0, v0) :: assocSet rest k v

/-- JS object read `obj[key]` on a string-to-string map. -/
def assocGet : List (String × String) → String → Option String
  | [], _ => none
  | (k0, v0) :: rest, k => if k0 == k then some v0 else assocGet rest k

/-- The `valueOf` (part_001 lines 297-299): `values[key] ? values[key] : ''` —
only the empty string (and a missing key) is falsy for string values. -/
def SharingPeer.valueOf (p : SharingPeer) (key : String) : String :=
  match assocGet p.dataChannelValues key with
  | some v => if v != "" then v else ""
  | none => ""

/-- Whether a promise result models a resolved promise (`Except.error`
would be a rejection). -/
def promiseResolved : Except String String → Bool
  | .ok _ => true
  | .error _ => false

/-- The `setValue` (part_001 lines 301-320): stores the value locally first;
without a data channel resolves with a "local" status; otherwise attempts
the data-channel send — a throw (`sendError`) is caught and resolved with
the error's message, success resolves with a "send" status.  No path
rejects. -/
def SharingPeer.setValue (p : SharingPeer) (key value : String)
    (sendError : Option String) : SharingPeer × Except String String :=
  let p := { p with dataChannelValues := assocSet p.dataChannelValues key value }
  match p.dataChannel with
  | none => (p, .ok ("local " ++ key ++ " = " ++ value))
  | some _ =>
    match sendError with
    | some errMsg => (p, .ok errMsg)
    | none =>
      ({ p with dcSent := p.dcSent ++ [(key, value)] },
       .ok ("send " ++ key ++ " = " ++ value))

/-- The older `SharingPeer` revision of src/unnamed/part_002, reduced to the
fields its `connect` touches. -/
structure SharingPeerV2 where
  channel : SheetSignalingChannel
  signalingState : String
  signalName : String
  deriving DecidableEq

/-- The `connect` (part_002 lines 36-44): early-returns when already offering or
answering the same signal name; otherwise connects the channel and resets
the state to `connected`. -/
def SharingPeerV2.connect (p : SharingPeerV2) (signalName : String) :
    SharingPeerV2 :=
  if p.channel.signalName == signalName &&
      (p.signalingState == "offering" || p.signalingState == "answering") then
    p
  else
    { p with channel := p.channel.connect signalName
             signalName := signalName, signalingState := "connected" }

/-- Concrete engine for exercising C3: channel connected to session `s`. -/
def pwC3 : SharingPeer :=
  { mkSharingPeer "A" with signalingState := "connected", signalName := "s"
                           channel := (mkChannel "A").connect "s" }

/-- Concrete world for exercising C5: an offering peer `A` with an armed
timeout and its own offer (plus a foreign candidate) on the relay. -/
def wC5 : World :=
  { peer := { mkSharingPeer "A" with
      channel := { connected := true, id := "A", pollIntervalMs := some 1000
                   signalingState := "connected", signalName := "s"
                   sent := [localOffer] }
      signalingState := "offering", signalName := "s"
      pc := some { mkPC true with localDescSet := true
                                  pcSignalingState := "have-local-offer" }
      negotiationTimeoutArmed := some 60000
      negotiationCallbacksSet := true }
    relay := [⟨"s", "A", ⟨"offer", "sdp"⟩, 1⟩,
              ⟨"s", "B", ⟨"candidate", "c"⟩, 2⟩] }

/-- Concrete engine for exercising C6: answering peer with two queued
candidates and no remote description yet. -/
def pwC6 : SharingPeer :=
  { mkSharingPeer "A" with
    signalingState := "answering"
    channel := { connected := true, id := "A", pollIntervalMs := some 1000
                 signalingState := "connected", signalName := "s", sent := [] }
    pc := some (mkPC false)
    remoteCandidatesQueue := ["c1", "c2"] }

/-- Concrete engine for C8: already offering session `room1` (own offer on
the relay, timeout armed, peer connection not yet connected). -/
def pw8 : SharingPeer :=
  { mkSharingPeer "A" with
    channel := { connected := true, id := "A", pollIntervalMs := some 1000
                 signalingState := "connected", signalName := "room1"
                 sent := [localOffer] }
    signalingState := "offering", signalName := "room1"
    pc := some { mkPC true with localDescSet := true
                                pcSignalingState := "have-local-offer" }
    negotiationTimeoutArmed := some 60000
    negotiationCallbacksSet := true }

/-- Concrete part_002 peer for C8: already offering session `room1`. -/
def qw8 : SharingPeerV2 :=
  { channel := { connected := true, id := "B", pollIntervalMs := some 1000
                 signalingState := "connected", signalName := "room1"
                 sent := [] }
    signalingState := "offering", signalName := "room1" }

/-- Concrete world for C9: mid-negotiation engine with one queued remote
candidate. -/
def wC9 : World :=
  { peer := { mkSharingPeer "A" with
      channel := { connected := true, id := "A", pollIntervalMs := some 1000
                   signalingState := "connected", signalName := "s", sent := [] }
      signalingState := "offering", signalName := "s"
      remoteCandidatesQueue := ["c1"]
      negotiationTimeoutArmed := some 60000
      negotiationCallbacksSet := true }
    relay := [] }

/-- Concrete engine for C10: an open data channel whose send will throw. -/
def pw10 : SharingPeer :=
  { mkSharingPeer "A" with dataChannel := some "xcxP2P" }

/-- Every message delivered by the scan comes from a row of the scanned list
for the requested session. -/
theorem doGetPass_delivered_from_rows (signalName recipientId : String) :
    ∀ (rows : List SignalRow) (flag : Bool) (d : Delivered),
      d ∈ (doGetPass signalName recipientId rows flag).1 →
      ∃ r ∈ rows, r.signalName = signalName ∧ d.message = r.message := by
  intro rows
  induction rows with
  | nil => intro flag d h; simp [doGetPass] at h
  | cons row rest ih =>
    intro flag d h
    by_cases hs : row.signalName == signalName
    · rw [doGetPass, if_pos hs] at h
      by_cases hd : row.fromId != recipientId &&
          !(flag || (row.message.type == "answer"))
      · rw [if_pos hd] at h
        rcases List.mem_cons.mp h with h1 | h2
        · exact ⟨row, List.mem_cons_self _ _, eq_of_beq hs, by rw [h1]⟩
        · obtain ⟨r, hr, hrs, hrm⟩ := ih _ d h2
          exact ⟨r, List.mem_cons_of_mem _ hr, hrs, hrm⟩
      · rw [if_neg hd] at h
        obtain ⟨r, hr, hrs, hrm⟩ := ih _ d h
        exact ⟨r, List.mem_cons_of_mem _ hr, hrs, hrm⟩
    · rw [doGetPass, if_neg hs] at h
      obtain ⟨r, hr, hrs, hrm⟩ := ih _ d h
      exact ⟨r, List.mem_cons_of_mem _ hr, hrs, hrm⟩

/-- Every message delivered by `doGet` is the message of some sheet row of
the requested session. -/
theorem doGet_delivered_from_sheet (sheet : List SignalRow)
    (signalName recipientId : String) (d : Delivered)
    (h : d ∈ (doGet sheet signalName recipientId).1) :
    ∃ r ∈ sheet, r.signalName = signalName ∧ d.message = r.message := by
  obtain ⟨r, hr, hrs, hrm⟩ :=
    doGetPass_delivered_from_rows signalName recipientId sheet.reverse false d h
  exact ⟨r, List.mem_reverse.mp hr, hrs, hrm⟩

/-- Claim C1: `doGet` never delivers an `answer` record.  The flag
`answerSent` is set before the delivery check of the same iteration, so an
answer posted by B for session `room1` is neither returned to the polling
peer A nor deleted: the pass yields an empty message array and leaves the
sheet unchanged, while the claim (and the spec scenario
"A's next poll retrieves the Answer") requires the answer to be delivered
and then deleted. -/
theorem claim_C1_answer_record_not_delivered :
    doGet [⟨"room1", "B", ⟨"answer", "sdpB"⟩, 5⟩] "room1" "A" =
      ([], [⟨"room1", "B", ⟨"answer", "sdpB"⟩, 5⟩]) := by
  rfl

/-- Claim C2: a `doPost` whose message type is `answer` removes every
pre-existing row of that session before appending the answer row, hence the
only rows of the session afterwards carry an `answer` message and any
subsequent `doGet` of the session delivers no `offer`; a `doPost` of any
other message type appends its row and removes nothing. -/
theorem claim_C2_doPost_answer_authoritative
    (sheet : List SignalRow) (sig fid body : String) (ts : Nat)
    (rid : String) :
    doPost sheet sig fid ⟨"answer", body⟩ ts =
      sheet.filter (fun r => r.signalName != sig) ++
        [⟨sig, fid, ⟨"answer", body⟩, ts⟩] ∧
    (∀ r ∈ doPost sheet sig fid ⟨"answer", body⟩ ts,
        r.signalName = sig → r.message.type = "answer") ∧
    (∀ d ∈ (doGet (doPost sheet sig fid ⟨"answer", body⟩ ts) sig rid).1,
        d.message.type ≠ "offer") ∧
    (∀ (ty b2 : String), ty ≠ "answer" →
        doPost sheet sig fid ⟨ty, b2⟩ ts =
          sheet ++ [⟨sig, fid, ⟨ty, b2⟩, ts⟩]) := by
  refine ⟨by simp [doPost], ?_, ?_, ?_⟩
  · intro r hr hrs
    rcases List.mem_append.mp hr with h1 | h2
    · rcases List.mem_filter.mp h1 with ⟨_, hne⟩
      simp only [bne_iff_ne, ne_eq] at hne
      exact absurd hrs hne
    · simp only [List.mem_singleton] at h2
      rw [h2]
  · intro d hd
    obtain ⟨r, hr, hrs, hrm⟩ :=
      doGet_delivered_from_sheet _ sig rid d hd
    have : r.message.type = "answer" := by
      rcases List.mem_append.mp hr with h1 | h2
      · rcases List.mem_filter.mp h1 with ⟨_, hne⟩
        simp only [bne_iff_ne, ne_eq] at hne
        exact absurd hrs hne
      · simp only [List.mem_singleton] at h2
        rw [h2]
    rw [hrm, this]
    decide
  · intro ty b2 hne
    simp [doPost, hne]

/-- Witness for C2 at concrete inputs: posting an answer for session `s`
wipes the earlier offer of `s` but keeps the row of session `t`, and posting
a candidate only appends. -/
theorem claim_C2_witness :
    doPost [⟨"s", "A", ⟨"offer", "o"⟩, 1⟩, ⟨"t", "A", ⟨"offer", "o"⟩, 2⟩]
        "s" "B" ⟨"answer", "a"⟩ 3 =
      [⟨"t", "A", ⟨"offer", "o"⟩, 2⟩] ++ [⟨"s", "B", ⟨"answer", "a"⟩, 3⟩] ∧
    doPost [⟨"s", "A", ⟨"offer", "o"⟩, 1⟩] "s" "A" ⟨"candidate", "c"⟩ 4 =
      [⟨"s", "A", ⟨"offer", "o"⟩, 1⟩] ++ [⟨"s", "A", ⟨"candidate", "c"⟩, 4⟩] := by
  constructor
  · have h := claim_C2_doPost_answer_authoritative
      [⟨"s", "A", ⟨"offer", "o"⟩, 1⟩, ⟨"t", "A", ⟨"offer", "o"⟩, 2⟩]
      "s" "B" "a" 3 "A"
    rw [h.1]
    decide
  · exact (claim_C2_doPost_answer_authoritative
      [⟨"s", "A", ⟨"offer", "o"⟩, 1⟩] "s" "A" "x" 4 "A").2.2.2
      "candidate" "c" (by decide)

/-- Counterexample to claim C7: on a fresh channel, `connect` marks the
transport connected but installs no poll timer (the 1000 ms interval is
started only by `startPolling`, which `connect` never calls). -/
theorem claim_C7_counterexample :
    ((mkChannel "A").connect "room1").connected = true ∧
    ((mkChannel "A").connect "room1").pollIntervalMs ≠ some 1000 ∧
    ((mkChannel "A").connect "room1").pollIntervalMs = none := by
  refine ⟨rfl, ?_, rfl⟩
  decide

/-- Claim C7 as amended: `connect` on a disconnected transport marks it
connected and records the session name but leaves the poll timer untouched
(polling starts only through `startPolling`, reached from
`startOffering`/`startAnswering`, with the fixed 1000 ms interval); calling
`connect` again while already connected changes nothing at all. -/
theorem claim_C7_connect_behavior (c : SheetSignalingChannel) (name : String) :
    (c.connected = true → c.connect name = c) ∧
    (c.connected = false →
      (c.connect name).connected = true ∧
      (c.connect name).signalName = name ∧
      (c.connect name).pollIntervalMs = c.pollIntervalMs) ∧
    (c.pollIntervalMs = none → (c.startPolling).pollIntervalMs = some 1000) := by
  refine ⟨?_, ?_, ?_⟩
  · intro h; simp [SheetSignalingChannel.connect, h]
  · intro h
    simp [SheetSignalingChannel.connect, h]
  · intro h
    simp [SheetSignalingChannel.startPolling, h]

/-- Witness for the amended C7 at a concrete channel. -/
theorem claim_C7_witness :
    ((mkChannel "A").connect "r").connected = true ∧
    ((mkChannel "A").connect "r").signalName = "r" ∧
    ((mkChannel "A").connect "r").pollIntervalMs =
      (mkChannel "A").pollIntervalMs ∧
    ((mkChannel "A").startPolling).pollIntervalMs = some 1000 :=
  ⟨((claim_C7_connect_behavior (mkChannel "A") "r").2.1 rfl).1,
   ((claim_C7_connect_behavior (mkChannel "A") "r").2.1 rfl).2.1,
   ((claim_C7_connect_behavior (mkChannel "A") "r").2.1 rfl).2.2,
   (claim_C7_connect_behavior (mkChannel "A") "r").2.2 rfl⟩

/-- Claim C4: for a connected channel, `isOffering` answers true exactly when
the relay holds an offer-type record for the channel's session from a sender
other than the channel itself, and the query leaves the stored records
untouched. -/
theorem claim_C4_isOffering_iff (c : SheetSignalingChannel)
    (sheet : List SignalRow) (h : c.connected = true) :
    (c.isOffering sheet = true ↔
      ∃ r ∈ sheet, r.signalName = c.signalName ∧ r.fromId ≠ c.id ∧
        r.message.type = "offer") ∧
    (relayIsOffering sheet c.signalName c.id).2 = sheet := by
  constructor
  · rw [SheetSignalingChannel.isOffering, if_neg (by simp [h])]
    rw [relayIsOffering]
    simp only [List.any_eq_true, Bool.and_eq_true, beq_iff_eq, bne_iff_ne,
      ne_eq]
    constructor
    · rintro ⟨r, hr, ⟨h1, h2⟩, h3⟩
      exact ⟨r, hr, h1, h2, h3⟩
    · rintro ⟨r, hr, h1, h2, h3⟩
      exact ⟨r, hr, ⟨h1, h2⟩, h3⟩
  · rfl

/-- Witness for C4: a connected channel for session `s`, with an offer from
another peer on the relay, answers true; the same query on a relay holding
only its own offer stays available for the general theorem's iff. -/
theorem claim_C4_witness :
    ((mkChannel "A").connect "s").connected = true ∧
    (((mkChannel "A").connect "s").isOffering
        [⟨"s", "B", ⟨"offer", "o"⟩, 1⟩] = true ↔
      ∃ r ∈ [⟨"s", "B", ⟨"offer", "o"⟩, (1 : Nat)⟩],
        SignalRow.signalName r = ((mkChannel "A").connect "s").signalName ∧
        SignalRow.fromId r ≠ ((mkChannel "A").connect "s").id ∧
        (SignalRow.message r).type = "offer") := by
  exact ⟨rfl, (claim_C4_isOffering_iff ((mkChannel "A").connect "s")
    [⟨"s", "B", ⟨"offer", "o"⟩, 1⟩] rfl).1⟩

/-- The `startPolling` only touches the interval field. -/
theorem startPolling_preserves (c : SheetSignalingChannel) :
    (c.startPolling).connected = c.connected ∧ (c.startPolling).sent = c.sent ∧
    (c.startPolling).signalingState = c.signalingState ∧
    (c.startPolling).signalName = c.signalName ∧ (c.startPolling).id = c.id := by
  unfold SheetSignalingChannel.startPolling
  split <;> simp

/-- The `stopNegotiation` on the channel is exactly clearing the interval. -/
theorem stopNegotiation_channel (c : SheetSignalingChannel) :
    c.stopNegotiation = { c with pollIntervalMs := none } := rfl

/-- A connected channel in state `connected` really sends the offer when
`startOffering` runs. -/
theorem channel_startOffering_sent (c : SheetSignalingChannel) (m : Msg)
    (hc : c.connected = true) (hs : c.signalingState = "connected") :
    (c.startOffering m).sent = c.sent ++ [m] := by
  have h1 := startPolling_preserves c
  unfold SheetSignalingChannel.startOffering SheetSignalingChannel.send
  rw [if_neg (by simp [hs]), if_pos (by rw [h1.1, hc])]
  simp [h1.2.1]

/-- The `startAnswering` on the channel never sends anything. -/
theorem channel_startAnswering_sent (c : SheetSignalingChannel) :
    (c.startAnswering).sent = c.sent := by
  unfold SheetSignalingChannel.startAnswering
  split
  · rfl
  · exact (startPolling_preserves c).2.1

/-- For an already-connected channel, `connectSignalingChannel` leaves the
channel and the timeout durations untouched. -/
theorem connectSignalingChannel_preserves (p : SharingPeer) (name : String)
    (hc : p.channel.connected = true) :
    (p.connectSignalingChannel name).channel = p.channel ∧
    (p.connectSignalingChannel name).offeringTimeoutDuration =
      p.offeringTimeoutDuration ∧
    (p.connectSignalingChannel name).answeringTimeoutDuration =
      p.answeringTimeoutDuration := by
  unfold SharingPeer.connectSignalingChannel
  split
  · exact ⟨rfl, rfl, rfl⟩
  · simp [SheetSignalingChannel.connect, hc]

/-- What `startOffering` does to an engine whose channel is connected and in
state `connected`: state `offering`, offer sent, offering timeout armed,
fresh initiator peer connection holding the local offer. -/
theorem startOffering_spec (p : SharingPeer)
    (hc : p.channel.connected = true)
    (hs : p.channel.signalingState = "connected") :
    (p.startOffering).signalingState = "offering" ∧
    (p.startOffering).channel.sent = p.channel.sent ++ [localOffer] ∧
    (p.startOffering).negotiationTimeoutArmed =
      some p.offeringTimeoutDuration ∧
    (p.startOffering).pc =
      some { mkPC true with localDescSet := true
                            pcSignalingState := "have-local-offer" } := by
  unfold SharingPeer.startOffering SharingPeer.initPeerConnection
    SharingPeer.disconnectPeer
  refine ⟨rfl, ?_, rfl, rfl⟩
  exact channel_startOffering_sent p.channel localOffer hc hs

/-- What `startAnswering` does: state `answering`, nothing sent, answering
timeout armed. -/
theorem startAnswering_spec (p : SharingPeer) :
    (p.startAnswering).signalingState = "answering" ∧
    (p.startAnswering).channel.sent = p.channel.sent ∧
    (p.startAnswering).negotiationTimeoutArmed =
      some p.answeringTimeoutDuration := by
  unfold SharingPeer.startAnswering SharingPeer.initPeerConnection
    SharingPeer.disconnectPeer
  exact ⟨rfl, channel_startAnswering_sent p.channel, rfl⟩

/-- The `startSignaling` path taken when the relay reports no foreign offer:
the engine offers. -/
theorem startSignaling_offering_path (p : SharingPeer) (name : String)
    (sheet : List SignalRow)
    (hc : p.channel.connected = true)
    (hs : p.channel.signalingState = "connected")
    (hq : (p.connectSignalingChannel name).channel.isOffering sheet = false) :
    (p.startSignaling name sheet).signalingState = "offering" ∧
    (p.startSignaling name sheet).channel.sent =
      p.channel.sent ++ [localOffer] ∧
    (p.startSignaling name sheet).negotiationTimeoutArmed =
      some p.offeringTimeoutDuration ∧
    (p.startSignaling name sheet).pc =
      some { mkPC true with localDescSet := true
                            pcSignalingState := "have-local-offer" } := by
  obtain ⟨hch, hoffd, hansd⟩ := connectSignalingChannel_preserves p name hc
  have hrun : p.startSignaling name sheet =
      (p.connectSignalingChannel name).startOffering := by
    unfold SharingPeer.startSignaling
    rw [hq]
    simp
  rw [hrun]
  have hspec := startOffering_spec (p.connectSignalingChannel name)
    (by rw [hch]; exact hc) (by rw [hch]; exact hs)
  rw [hch, hoffd] at hspec
  exact hspec

/-- The `startSignaling` path taken when the relay reports a foreign offer:
the engine answers and sends nothing. -/
theorem startSignaling_answering_path (p : SharingPeer) (name : String)
    (sheet : List SignalRow)
    (hc : p.channel.connected = true)
    (hq : (p.connectSignalingChannel name).channel.isOffering sheet = true) :
    (p.startSignaling name sheet).signalingState = "answering" ∧
    (p.startSignaling name sheet).channel.sent = p.channel.sent := by
  obtain ⟨hch, hoffd, hansd⟩ := connectSignalingChannel_preserves p name hc
  have hrun : p.startSignaling name sheet =
      (p.connectSignalingChannel name).startAnswering := by
    unfold SharingPeer.startSignaling
    rw [hq]
    simp
  rw [hrun]
  have hspec := startAnswering_spec (p.connectSignalingChannel name)
  rw [hch] at hspec
  exact ⟨hspec.1, hspec.2.1⟩

/-- Claim C3: from engine state `connected`, `startSignaling` follows the
relay's isOffering answer: when false it enters `offering` (fresh initiator
peer connection with the local offer set, the offer sent, the offering
timeout armed); when true it enters `answering` and sends no offer. -/
theorem claim_C3_startSignaling_role_choice (p : SharingPeer) (name : String)
    (sheet : List SignalRow)
    (hps : p.signalingState = "connected")
    (hc : p.channel.connected = true)
    (hs : p.channel.signalingState = "connected") :
    ((p.connectSignalingChannel name).channel.isOffering sheet = false →
      (p.startSignaling name sheet).signalingState = "offering" ∧
      (p.startSignaling name sheet).channel.sent =
        p.channel.sent ++ [localOffer] ∧
      (p.startSignaling name sheet).negotiationTimeoutArmed =
        some p.offeringTimeoutDuration ∧
      (p.startSignaling name sheet).pc =
        some { mkPC true with localDescSet := true
                              pcSignalingState := "have-local-offer" }) ∧
    ((p.connectSignalingChannel name).channel.isOffering sheet = true →
      (p.startSignaling name sheet).signalingState = "answering" ∧
      (p.startSignaling name sheet).channel.sent = p.channel.sent) :=
  ⟨fun hq => startSignaling_offering_path p name sheet hc hs hq,
   fun hq => startSignaling_answering_path p name sheet hc hq⟩

/-- Witness for C3: with an empty relay the engine offers; with a foreign
offer on the relay it answers. -/
theorem claim_C3_witness :
    (pwC3.startSignaling "s" []).signalingState = "offering" ∧
    (pwC3.startSignaling "s"
        [⟨"s", "B", ⟨"offer", "o"⟩, 1⟩]).signalingState = "answering" :=
  ⟨((claim_C3_startSignaling_role_choice pwC3 "s" [] rfl rfl rfl).1
      (by decide)).1,
   ((claim_C3_startSignaling_role_choice pwC3 "s"
        [⟨"s", "B", ⟨"offer", "o"⟩, 1⟩] rfl rfl rfl).2 (by decide)).1⟩

/-- Claim C5: while the negotiation timeout is armed and the promise is
pending, firing it stops the channel's polling, deletes this peer's own
relay records, disarms the timer, reverts the engine to `connected` and
rejects the promise with the matching timeout error; a successful
`stopNegotiation` disarms the timer, after which neither timeout callback
can fire; the default durations are 60000 ms. -/
theorem claim_C5_negotiation_timeout (w : World) (d : Nat) (id : String)
    (ha : w.peer.negotiationTimeoutArmed = some d)
    (hc : w.peer.channel.connected = true)
    (hp : w.peer.negotiationOutcome = none) :
    ((fireOfferingTimeout w).peer.channel.pollIntervalMs = none ∧
     (fireOfferingTimeout w).relay =
       relayDeleteOwn w.relay w.peer.channel.signalName w.peer.channel.id ∧
     (∀ r ∈ (fireOfferingTimeout w).relay,
        ¬(r.signalName = w.peer.channel.signalName ∧
          r.fromId = w.peer.channel.id)) ∧
     (fireOfferingTimeout w).peer.signalingState = "connected" ∧
     (fireOfferingTimeout w).peer.negotiationTimeoutArmed = none ∧
     (fireOfferingTimeout w).peer.negotiationOutcome =
       some (NegotiationOutcome.rejected "Offering timeout")) ∧
    ((fireAnsweringTimeout w).peer.channel.pollIntervalMs = none ∧
     (fireAnsweringTimeout w).peer.signalingState = "connected" ∧
     (fireAnsweringTimeout w).peer.negotiationTimeoutArmed = none ∧
     (fireAnsweringTimeout w).peer.negotiationOutcome =
       some (NegotiationOutcome.rejected "Answering timeout")) ∧
    ((w.stopNegotiation true).peer.negotiationTimeoutArmed = none ∧
     fireOfferingTimeout (w.stopNegotiation true) = w.stopNegotiation true ∧
     fireAnsweringTimeout (w.stopNegotiation true) = w.stopNegotiation true) ∧
    ((mkSharingPeer id).offeringTimeoutDuration = 60000 ∧
     (mkSharingPeer id).answeringTimeoutDuration = 60000) := by
  have harm : (w.stopNegotiation true).peer.negotiationTimeoutArmed = none := by
    unfold World.stopNegotiation
    simp
  have hdel : ((w.peer.channel.stopNegotiation).deleteOwnMessages w.relay) =
      relayDeleteOwn w.relay w.peer.channel.signalName w.peer.channel.id := by
    simp [stopNegotiation_channel, SheetSignalingChannel.deleteOwnMessages, hc]
  have hnoown : ∀ r ∈ relayDeleteOwn w.relay w.peer.channel.signalName
        w.peer.channel.id,
      ¬(r.signalName = w.peer.channel.signalName ∧
        r.fromId = w.peer.channel.id) := by
    intro r hr hand
    rcases List.mem_filter.mp hr with ⟨-, hcond⟩
    rw [hand.1, hand.2] at hcond
    simp at hcond
  refine ⟨?_, ?_, ⟨harm, ?_, ?_⟩, rfl, rfl⟩
  · unfold fireOfferingTimeout
    rw [if_pos (by rw [ha]; rfl)]
    refine ⟨rfl, hdel, ?_, rfl, rfl, by simp [hp]⟩
    intro r hr
    exact hnoown r (hdel ▸ hr)
  · unfold fireAnsweringTimeout
    rw [if_pos (by rw [ha]; rfl)]
    exact ⟨rfl, rfl, rfl, by simp [hp]⟩
  · unfold fireOfferingTimeout
    rw [if_neg (by rw [harm]; simp)]
  · unfold fireAnsweringTimeout
    rw [if_neg (by rw [harm]; simp)]

/-- Witness for C5 at a concrete offering world: the timeout fires, polling
stops, the peer's own relay rows vanish, and the promise is rejected. -/
theorem claim_C5_witness :
    (fireOfferingTimeout wC5).peer.channel.pollIntervalMs = none ∧
    (fireOfferingTimeout wC5).peer.signalingState = "connected" ∧
    (fireOfferingTimeout wC5).peer.negotiationOutcome =
      some (NegotiationOutcome.rejected "Offering timeout") ∧
    (fireOfferingTimeout wC5).relay = relayDeleteOwn wC5.relay "s" "A" :=
  ⟨(claim_C5_negotiation_timeout wC5 60000 "x" rfl rfl rfl).1.1,
   (claim_C5_negotiation_timeout wC5 60000 "x" rfl rfl rfl).1.2.2.2.1,
   (claim_C5_negotiation_timeout wC5 60000 "x" rfl rfl rfl).1.2.2.2.2.2,
   (claim_C5_negotiation_timeout wC5 60000 "x" rfl rfl rfl).1.2.1⟩

/-- A received candidate message is applied immediately when the remote
description is set, and queued otherwise. -/
theorem handle_candidate_spec (p : SharingPeer) (c0 : PC) (cand : String)
    (hpc : p.pc = some c0) :
    p.handleSignalingMessage ⟨"candidate", cand⟩ =
      (if c0.remoteDescSet then
        { p with pc := some { c0 with applied := c0.applied ++ [cand] } }
      else
        { p with remoteCandidatesQueue :=
            p.remoteCandidatesQueue ++ [cand] }) := by
  unfold SharingPeer.handleSignalingMessage
  have h1 : (("candidate" : String) == "offer") = false := by decide
  have h2 : (("candidate" : String) == "answer") = false := by decide
  have h3 : (("candidate" : String) == "candidate") = true := by decide
  simp only [h1, h2, h3, Bool.false_and, Bool.false_eq_true, if_false,
    if_true, hpc]

/-- Processing a run of candidate messages before any remote description is
set leaves the peer connection untouched and appends the candidates to the
queue in arrival order. -/
theorem handleCandidates_queued (cs : List String) :
    ∀ (p : SharingPeer) (c0 : PC), p.pc = some c0 → c0.remoteDescSet = false →
      (p.handleCandidates cs).pc = some c0 ∧
      (p.handleCandidates cs).remoteCandidatesQueue =
        p.remoteCandidatesQueue ++ cs := by
  induction cs with
  | nil =>
    intro p c0 h1 h2
    simp [SharingPeer.handleCandidates, h1]
  | cons c rest ih =>
    intro p c0 h1 h2
    have hstep := handle_candidate_spec p c0 c h1
    rw [h2] at hstep
    simp only [Bool.false_eq_true, if_false] at hstep
    have hfold : p.handleCandidates (c :: rest) =
        (p.handleSignalingMessage ⟨"candidate", c⟩).handleCandidates rest := by
      rfl
    rw [hfold, hstep]
    have := ih { p with remoteCandidatesQueue :=
        p.remoteCandidatesQueue ++ [c] } c0 h1 h2
    rcases this with ⟨ha, hb⟩
    refine ⟨ha, ?_⟩
    rw [hb]
    simp

/-- Claim C6: candidates are applied immediately iff the remote description
is set, otherwise queued in arrival order with nothing applied; setting the
remote description (offer while answering, answer while offering) flushes
the whole queue onto the connection in order and clears it. -/
theorem claim_C6_candidate_queue (p : SharingPeer) (c0 : PC)
    (cand sdp : String) (cs : List String) (hpc : p.pc = some c0) :
    (c0.remoteDescSet = true →
      (p.handleSignalingMessage ⟨"candidate", cand⟩).pc =
        some { c0 with applied := c0.applied ++ [cand] } ∧
      (p.handleSignalingMessage ⟨"candidate", cand⟩).remoteCandidatesQueue =
        p.remoteCandidatesQueue) ∧
    (c0.remoteDescSet = false →
      (p.handleCandidates cs).pc = some c0 ∧
      (p.handleCandidates cs).remoteCandidatesQueue =
        p.remoteCandidatesQueue ++ cs) ∧
    (p.signalingState = "answering" → c0.pcSignalingState = "stable" →
      (p.handleSignalingMessage ⟨"offer", sdp⟩).pc =
        some { c0 with remoteDescSet := true, localDescSet := true
                       pcSignalingState := "stable"
                       applied := c0.applied ++ p.remoteCandidatesQueue } ∧
      (p.handleSignalingMessage ⟨"offer", sdp⟩).remoteCandidatesQueue = []) ∧
    (p.signalingState = "offering" → c0.pcSignalingState = "have-local-offer" →
      (p.handleSignalingMessage ⟨"answer", sdp⟩).pc =
        some { c0 with remoteDescSet := true, pcSignalingState := "stable"
                       applied := c0.applied ++ p.remoteCandidatesQueue } ∧
      (p.handleSignalingMessage ⟨"answer", sdp⟩).remoteCandidatesQueue = []) := by
  refine ⟨?_, ?_, ?_, ?_⟩
  · intro h
    rw [handle_candidate_spec p c0 cand hpc, if_pos (by rw [h])]
    exact ⟨rfl, rfl⟩
  · intro h
    exact handleCandidates_queued cs p c0 hpc h
  · intro hst hsig
    unfold SharingPeer.handleSignalingMessage
    have h1 : (("offer" : String) == "offer") = true := by decide
    simp only [h1, Bool.true_and, hst, hpc]
    have h2 : (("answering" : String) == "answering") = true := by decide
    simp only [h2, if_true, hsig]
    have h3 : (("stable" : String) != "stable") = false := by decide
    simp only [h3, Bool.false_eq_true, if_false]
    constructor <;> trivial
  · intro hst hsig
    unfold SharingPeer.handleSignalingMessage
    have h1 : (("answer" : String) == "offer") = false := by decide
    have h2 : (("answer" : String) == "answer") = true := by decide
    simp only [h1, h2, Bool.false_and, Bool.true_and, Bool.false_eq_true,
      if_false, hst, hpc]
    have h3 : (("offering" : String) == "offering") = true := by decide
    simp only [h3, if_true, hsig]
    have h4 : (("have-local-offer" : String) != "have-local-offer") = false := by
      decide
    simp only [h4, Bool.false_eq_true, if_false]
    constructor <;> trivial

/-- Witness for C6 at a concrete answering engine with candidates `c1, c2`
queued before the offer arrives: a further candidate only queues, and the
offer flushes the queue in order and clears it. -/
theorem claim_C6_witness :
    (pwC6.handleCandidates ["c3"]).remoteCandidatesQueue =
      ["c1", "c2", "c3"] ∧
    (pwC6.handleSignalingMessage ⟨"offer", "o"⟩).pc =
      some { mkPC false with remoteDescSet := true, localDescSet := true
                             pcSignalingState := "stable"
                             applied := ["c1", "c2"] } ∧
    (pwC6.handleSignalingMessage ⟨"offer", "o"⟩).remoteCandidatesQueue = [] :=
  ⟨((claim_C6_candidate_queue pwC6 (mkPC false) "x" "o" ["c3"] rfl).2.1
      rfl).2,
   ((claim_C6_candidate_queue pwC6 (mkPC false) "x" "o" ["c3"] rfl).2.2.1
      rfl rfl).1,
   ((claim_C6_candidate_queue pwC6 (mkPC false) "x" "o" ["c3"] rfl).2.2.1
      rfl rfl).2⟩

/-- Counterexample to claim C8: on an engine already offering `room1` (own
offer on the relay, so the relay reports no foreign offer), calling
`startSignaling("room1")` again is not a no-op — a second offer reaches the
relay. -/
theorem claim_C8_counterexample :
    (pw8.startSignaling "room1"
        [⟨"room1", "A", ⟨"offer", "sdp"⟩, 1⟩]).channel.sent ≠
      pw8.channel.sent ∧
    (pw8.startSignaling "room1"
        [⟨"room1", "A", ⟨"offer", "sdp"⟩, 1⟩]).channel.sent =
      [localOffer, localOffer] := by
  constructor
  · decide
  · decide

/-- Claim C8 as amended: `startSignaling` has no duplicate-call guard — on
an engine already offering/answering the same signal name whose peer
connection is not yet connected, and whose only relay record is its own
offer (so the isOffering query answers false), the call restarts
negotiation: it sends a second offer, re-arms the offering timeout and ends
in state `offering` again.  The only early return on an in-progress
negotiation for the same name is the older revision's `connect`
(src/unnamed/part_002), which is a genuine no-op. -/
theorem claim_C8_no_duplicate_guard (p : SharingPeer) (name : String)
    (sheet : List SignalRow) (q : SharingPeerV2)
    (hps : p.signalingState = "offering" ∨ p.signalingState = "answering")
    (hn : p.channel.signalName = name)
    (hnc : p.isConnected = false)
    (hc : p.channel.connected = true)
    (hs : p.channel.signalingState = "connected")
    (hoff : (p.connectSignalingChannel name).channel.isOffering sheet = false)
    (hq : q.channel.signalName = name)
    (hqs : q.signalingState = "offering" ∨ q.signalingState = "answering") :
    (p.startSignaling name sheet).channel.sent =
      p.channel.sent ++ [localOffer] ∧
    (p.startSignaling name sheet).negotiationTimeoutArmed =
      some p.offeringTimeoutDuration ∧
    (p.startSignaling name sheet).signalingState = "offering" ∧
    q.connect name = q := by
  have hmain := startSignaling_offering_path p name sheet hc hs hoff
  refine ⟨hmain.2.1, hmain.2.2.1, hmain.1, ?_⟩
  unfold SharingPeerV2.connect
  rw [if_pos]
  rw [hq]
  rcases hqs with h | h <;> rw [h] <;> simp

/-- Witness for the amended C8 at the concrete already-offering engine and
the concrete part_002 peer. -/
theorem claim_C8_witness :
    (pw8.startSignaling "room1"
        [⟨"room1", "A", ⟨"offer", "sdp"⟩, 1⟩]).channel.sent =
      pw8.channel.sent ++ [localOffer] ∧
    qw8.connect "room1" = qw8 :=
  ⟨(claim_C8_no_duplicate_guard pw8 "room1"
      [⟨"room1", "A", ⟨"offer", "sdp"⟩, 1⟩] qw8 (Or.inl rfl) rfl rfl rfl rfl
      (by decide) rfl (Or.inl rfl)).1,
   (claim_C8_no_duplicate_guard pw8 "room1"
      [⟨"room1", "A", ⟨"offer", "sdp"⟩, 1⟩] qw8 (Or.inl rfl) rfl rfl rfl rfl
      (by decide) rfl (Or.inl rfl)).2.2.2⟩

/-- Counterexample to claim C9: `stopNegotiation` does not reset the
candidate queue — on a mid-negotiation engine with a queued remote
candidate, the queue survives the call. -/
theorem claim_C9_counterexample :
    (wC9.stopNegotiation false).peer.remoteCandidatesQueue ≠ [] ∧
    (wC9.stopNegotiation false).peer.remoteCandidatesQueue = ["c1"] := by
  constructor
  · decide
  · decide

/-- Claim C9 as amended: in every state (mid-negotiation or not, promise
pending or not) `stopNegotiation` completes, disarms the negotiation
timeout, clears the poll timer and reverts the engine state to `connected`;
the candidate queue, however, is left exactly as it was (it is cleared only
when a remote description is set, by the flush in
`handleSignalingMessage`). -/
theorem claim_C9_stopNegotiation_safe (w : World) (success : Bool) :
    (w.stopNegotiation success).peer.negotiationTimeoutArmed = none ∧
    (w.stopNegotiation success).peer.channel.pollIntervalMs = none ∧
    (w.stopNegotiation success).peer.signalingState = "connected" ∧
    (w.stopNegotiation success).peer.remoteCandidatesQueue =
      w.peer.remoteCandidatesQueue := by
  unfold World.stopNegotiation
  cases success
  · by_cases h : w.peer.negotiationCallbacksSet = true <;>
      simp [h, stopNegotiation_channel]
  · simp [stopNegotiation_channel]

/-- The `assocGet` after `assocSet` at the same key yields the new value. -/
theorem assocGet_assocSet (m : List (String × String)) (k v : String) :
    assocGet (assocSet m k v) k = some v := by
  induction m with
  | nil => simp [assocSet, assocGet]
  | cons kv rest ih =>
    obtain ⟨k0, v0⟩ := kv
    by_cases h : (k0 == k) = true
    · simp [assocSet, assocGet, h]
    · simp only [assocSet, h, Bool.false_eq_true, if_false]
      simp only [assocGet, h, Bool.false_eq_true, if_false]
      exact ih

/-- Claim C10: `setValue` writes the local value map before any send
attempt (so the map is updated on every path, data channel or not, throwing
or not), an immediate `valueOf` of the same key returns the value whenever
it is non-empty, and the returned promise is resolved on every path. -/
theorem claim_C10_setValue_local_first (p : SharingPeer) (key value : String)
    (sendError : Option String) :
    ((p.setValue key value sendError).1).dataChannelValues =
      assocSet p.dataChannelValues key value ∧
    (value ≠ "" → ((p.setValue key value sendError).1).valueOf key = value) ∧
    promiseResolved (p.setValue key value sendError).2 = true := by
  have hval : ∀ q : SharingPeer,
      q.dataChannelValues = assocSet p.dataChannelValues key value →
      value ≠ "" → q.valueOf key = value := by
    intro q hq hv
    unfold SharingPeer.valueOf
    rw [hq, assocGet_assocSet]
    simp [hv]
  unfold SharingPeer.setValue
  cases hdc : p.dataChannel with
  | none =>
    simp only [hdc]
    exact ⟨by trivial, fun hv => hval _ rfl hv, by trivial⟩
  | some dc =>
    cases sendError with
    | none =>
      simp only [hdc]
      exact ⟨by trivial, fun hv => hval _ rfl hv, by trivial⟩
    | some msg =>
      simp only [hdc]
      exact ⟨by trivial, fun hv => hval _ rfl hv, by trivial⟩

/-- Witness for C10: with an open data channel whose send throws, the value
is stored, readable at once, and the promise still resolves. -/
theorem claim_C10_witness :
    ((pw10.setValue "k" "v" (some "boom")).1).dataChannelValues =
      assocSet pw10.dataChannelValues "k" "v" ∧
    ((pw10.setValue "k" "v" (some "boom")).1).valueOf "k" = "v" ∧
    promiseResolved (pw10.setValue "k" "v" (some "boom")).2 = true :=
  ⟨(claim_C10_setValue_local_first pw10 "k" "v" (some "boom")).1,
   (claim_C10_setValue_local_first pw10 "k" "v" (some "boom")).2.1
     (by decide),
   (claim_C10_setValue_local_first pw10 "k" "v" (some "boom")).2.2⟩
